import Mathlib

/-!
Shallow embedding of the auto-devnet-request program.

The repository ships two variants built from the same client functions:
- `index.js`: a scheduled-loop variant with a per-session request limiter
  (`requestCount` / `MAX_REQUESTS_PER_SESSION`) and no statistics record;
- the HTTP-service variant (`part_002`): an Express server keeping a
  `stats` record (totalRequests / successfulRequests / failedRequests /
  lastRequestTime / lastSuccessTime / uptime) and no session limiter.

Both variants contain byte-identical copies of `getBalance`,
`requestDevnetSol` and `requestAirdrop`, and the identical
faucet-then-airdrop fallback sequence inside `requestSol`; those shared
pieces are embedded once below.  The two `requestSol` orchestrators are
embedded separately, in the namespaces `IndexJs` and `Service`.

External effects (the Solana RPC node, the faucet HTTP endpoint, the
wall clock) are modelled by an environment record `Env` fixed for one
orchestration run: each field gives the outcome of the corresponding
remote call, with `Except.error msg` standing for a raised/rejected
JavaScript error carrying `error.message = msg`.  Each embedded function
additionally returns the list of remote requests it issued (`Call`),
so that "client X was (not) invoked" is a statement about that trace.
Amounts are rationals (JavaScript numbers on the values the program
handles); timestamps are opaque strings.
-/

namespace AutoDevnet

/-- The `LAMPORTS_PER_SOL` conversion factor from `@solana/web3.js`. -/
def LAMPORTS_PER_SOL : ℚ := 1000000000

/-- Configuration constant: the fixed funded address (both variants). -/
def TARGET_ADDRESS : String := "2gAwqZmY7nRi9XCNQs3CjfSzDiVe5npwK3yS7ijo3E8h"

/-- Configuration constant: SOL requested per attempt (both variants). -/
def SOL_AMOUNT : ℚ := 5

/-- Configuration constant of `index.js`: session cap on orchestrations. -/
def MAX_REQUESTS_PER_SESSION : Nat := 2

/-- A remote request issued by the program, recorded at the wire level:
the faucet POST body and the airdrop RPC both carry the amount in
lamports, i.e. the SOL amount already multiplied by `LAMPORTS_PER_SOL`. -/
inductive Call where
  | balanceCheck (address : String)
  | faucet (address : String) (lamports : ℚ)
  | airdrop (address : String) (lamports : ℚ)
deriving DecidableEq, Repr

/-- Recognizer for airdrop calls in a trace. -/
def Call.isAirdrop : Call → Bool
  | .airdrop _ _ => true
  | _ => false

/-- The JSON body of a faucet HTTP response: `signature` is `some s`
when the body has a `signature` field holding the string `s`. -/
structure FaucetBody where
  signature : Option String
deriving DecidableEq, Repr

/-- An axios response from the faucet: `data = none` models a falsy
`response.data` (no/empty body). -/
structure FaucetResponse where
  data : Option FaucetBody
deriving DecidableEq, Repr

/-- One orchestration run's external world: the result of each remote
interaction the run may perform.  `Except.error msg` is a raised error
whose `message` is `msg` (covering timeouts, transport failures and
remote rejections alike, as in the JavaScript `catch` blocks). -/
structure Env where
  /-- Value of `new Date().toISOString()` during this run. -/
  now : String
  /-- Outcome of `connection.getBalance` (lamports), or a raised error
  (also covering a `new PublicKey(address)` constructor throw). -/
  balanceRpc : Except String ℚ
  /-- Outcome of the `axios.post` to the faucet URL. -/
  faucetResponse : Except String FaucetResponse
  /-- Outcome of `connection.requestAirdrop` followed by
  `connection.confirmTransaction`: the signature, or a raised error
  from either step. -/
  airdropRpc : Except String String
deriving Repr

/-- The `FundingResult` object, the uniform result of the two clients.
`signature`/`error` are `none` when the JavaScript object omits the
field. -/
structure FundingResult where
  success : Bool
  signature : Option String
  error : Option String
deriving DecidableEq, Repr

/-- JavaScript truthiness of an optional string value (an absent field
and the empty string are both falsy). -/
def jsTruthyStr : Option String → Bool
  | none => false
  | some s => s != ""

/-- The function `getBalance(address)` (identical in both variants): converts the
lamport balance to SOL, returns `null` (here `none`) on any raised
error.  Second component: the remote calls issued. -/
def getBalance (env : Env) (address : String) : Option ℚ × List Call :=
  (match env.balanceRpc with
   | .ok lamports => some (lamports / LAMPORTS_PER_SOL)
   | .error _ => none,
   [.balanceCheck address])

/-- The function `requestDevnetSol(address, amount)` (identical in both variants):
POSTs `amount * LAMPORTS_PER_SOL` to the faucet; succeeds iff
`response.data && response.data.signature` is truthy; otherwise returns
a failure carrying either the fixed message `"No signature returned"`
or the raised error's message. -/
def requestDevnetSol (env : Env) (address : String) (amount : ℚ) :
    FundingResult × List Call :=
  (match env.faucetResponse with
   | .error msg => { success := false, signature := none, error := some msg }
   | .ok resp =>
     match resp.data with
     | none => { success := false, signature := none, error := some "No signature returned" }
     | some body =>
       match body.signature with
       | none => { success := false, signature := none, error := some "No signature returned" }
       | some sig =>
         if sig != "" then { success := true, signature := some sig, error := none }
         else { success := false, signature := none, error := some "No signature returned" },
   [.faucet address (amount * LAMPORTS_PER_SOL)])

/-- The function `requestAirdrop(address, amount)` (identical in both variants):
requests `amount * LAMPORTS_PER_SOL` lamports via the RPC connection and
waits for confirmation; any raised error becomes a failure result. -/
def requestAirdrop (env : Env) (address : String) (amount : ℚ) :
    FundingResult × List Call :=
  (match env.airdropRpc with
   | .ok sig => { success := true, signature := some sig, error := none }
   | .error msg => { success := false, signature := none, error := some msg },
   [.airdrop address (amount * LAMPORTS_PER_SOL)])

/-- The faucet-then-airdrop fallback shared verbatim by both
orchestrators: try the faucet with `SOL_AMOUNT`; if it fails, try a
direct airdrop with `Math.min(SOL_AMOUNT, 2)`. -/
def fundingAttempt (env : Env) : FundingResult × List Call :=
  let r1 := requestDevnetSol env TARGET_ADDRESS SOL_AMOUNT
  if r1.1.success then r1
  else
    let r2 := requestAirdrop env TARGET_ADDRESS (min SOL_AMOUNT 2)
    (r2.1, r1.2 ++ r2.2)

/-- Decimal rendering of a rational to a fixed number of fraction
digits (the model of JavaScript's `Number.prototype.toFixed` on the
finite, non-negative values this program formats: scale, round half
up, print with zero-padded fraction). -/
def toFixed (digits : Nat) (q : ℚ) : String :=
  let p : Int := (10 : Int) ^ digits
  let scaled : Int := ⌊q * (p : ℚ) + 1 / 2⌋
  if digits = 0 then toString scaled
  else
    let sign := if scaled < 0 then "-" else ""
    let a := scaled.natAbs
    let frac := toString (a % p.natAbs)
    let pad := String.mk (List.replicate (digits - frac.length) '0')
    sign ++ toString (a / p.natAbs) ++ "." ++ pad ++ frac

/-- Lifting of `toFixed` to a possibly non-finite JavaScript number
(`none` models `NaN`, whose `toFixed` renders as `"NaN"`). -/
def jsToFixed (digits : Nat) : Option ℚ → String
  | none => "NaN"
  | some q => toFixed digits q

/-- JavaScript division producing `none` when the result is not a
finite number (division by zero: `0/0` is `NaN`, `x/0` is `±Infinity`;
neither is a finite numeric value). -/
def jsDiv (a b : ℚ) : Option ℚ :=
  if b = 0 then none else some (a / b)

/-- The ternary `balance ? balance.toFixed(4) : 'Unknown'` used by the
HTTP handlers for `GET /`, `POST /request` and `GET /balance`: JavaScript
truthiness makes both a `null` balance and a `0` balance render as
`"Unknown"`. -/
def renderBalance : Option ℚ → String
  | none => "Unknown"
  | some v => if v = 0 then "Unknown" else toFixed 4 v

namespace IndexJs

/-- The process state of the scheduled-loop variant (`index.js`): the
module-level session counter `requestCount` is its only mutable state;
this variant keeps no statistics record. -/
structure State where
  requestCount : Nat
deriving DecidableEq, Repr

/-- Which control path `requestSol()` in `index.js` took: the early
return when the session limit is reached (the JavaScript function's
return value is `undefined` either way; the constructor records the
path). -/
inductive RunOutcome where
  | skipped
  | completed
deriving DecidableEq, Repr

/-- One orchestration of the scheduled-loop variant: outcome path,
post-state, and the remote calls issued. -/
structure Run where
  outcome : RunOutcome
  state : State
  trace : List Call
deriving Repr

/-- The orchestrator `requestSol()` of `index.js`: skip (issuing no remote call and
leaving the state unchanged) when `requestCount >= MAX_REQUESTS_PER_SESSION`;
otherwise increment the counter, read the balance (best-effort), and
run the faucet-then-airdrop fallback.  The deferred `setTimeout`
balance re-check on success is fire-and-forget and outside the
function's returned behaviour, so it is not part of the run. -/
def requestSol (env : Env) (s : State) : Run :=
  if s.requestCount ≥ MAX_REQUESTS_PER_SESSION then
    { outcome := .skipped, state := s, trace := [] }
  else
    let bal := getBalance env TARGET_ADDRESS
    let fr := fundingAttempt env
    { outcome := .completed
      state := { requestCount := s.requestCount + 1 }
      trace := bal.2 ++ fr.2 }

/-- The function `resetRequestCounter()` of `index.js`. -/
def resetRequestCounter (_s : State) : State :=
  { requestCount := 0 }

end IndexJs

namespace Service

/-- The `stats` record of the HTTP-service variant. -/
structure Stats where
  totalRequests : Nat
  successfulRequests : Nat
  failedRequests : Nat
  lastRequestTime : Option String
  lastSuccessTime : Option String
  /-- Value of `Date.now()` at module initialization. -/
  uptime : Nat
deriving DecidableEq, Repr

/-- The initial `stats` value. -/
def initialStats (startTime : Nat) : Stats :=
  { totalRequests := 0, successfulRequests := 0, failedRequests := 0
    lastRequestTime := none, lastSuccessTime := none, uptime := startTime }

/-- The object returned by the service variant's `requestSol()`:
`signature` / `requestedAmount` / `error` are `none` when the branch
omits the field, `currentBalance` is `none` when `getBalance` returned
`null`. -/
structure Outcome where
  success : Bool
  message : String
  signature : Option String
  currentBalance : Option ℚ
  requestedAmount : Option ℚ
  error : Option String
deriving DecidableEq, Repr

/-- One orchestration of the service variant: the returned outcome,
the updated `stats`, and the remote calls issued. -/
structure Run where
  outcome : Outcome
  stats : Stats
  trace : List Call
deriving Repr

/-- The orchestrator `requestSol()` of the HTTP-service variant: unconditionally count
the attempt, read the balance (best-effort), run the shared
faucet-then-airdrop fallback, then record success or failure and build
the outcome object.  The success branch's
`requestedAmount: result.signature ? SOL_AMOUNT : Math.min(SOL_AMOUNT, 2)`
tests truthiness of the signature string.  The `catch` branch of the
source is unreachable here because every lower-level call already
catches its own errors (the model's clients are total functions); the
deferred balance re-check is fire-and-forget as in `IndexJs.requestSol`. -/
def requestSol (env : Env) (s : Stats) : Run :=
  let s1 := { s with totalRequests := s.totalRequests + 1
                     lastRequestTime := some env.now }
  let bal := getBalance env TARGET_ADDRESS
  let fr := fundingAttempt env
  if fr.1.success then
    { outcome :=
        { success := true
          message := "SOL request completed successfully"
          signature := fr.1.signature
          currentBalance := bal.1
          requestedAmount :=
            some (if jsTruthyStr fr.1.signature then SOL_AMOUNT else min SOL_AMOUNT 2)
          error := none }
      stats := { s1 with successfulRequests := s1.successfulRequests + 1
                         lastSuccessTime := some env.now }
      trace := bal.2 ++ fr.2 }
  else
    { outcome :=
        { success := false
          message := "SOL request failed"
          signature := none
          currentBalance := bal.1
          requestedAmount := none
          error := fr.1.error }
      stats := { s1 with failedRequests := s1.failedRequests + 1 }
      trace := bal.2 ++ fr.2 }

/-- Iterated orchestrations: run `requestSol` once per environment in
the list, threading the statistics. -/
def runMany (envs : List Env) (s : Stats) : Stats :=
  match envs with
  | [] => s
  | e :: rest => runMany rest (requestSol e s).stats

/-- The success-rate expression of `GET /` and `GET /stats`:
`totalRequests > 0 ? ((successfulRequests / totalRequests) * 100).toFixed(2) + '%' : '0%'`,
with the division modelled as JavaScript division (`jsDiv`). -/
def successRate (s : Stats) : String :=
  if 0 < s.totalRequests then
    jsToFixed 2 ((jsDiv (s.successfulRequests : ℚ) (s.totalRequests : ℚ)).map (· * 100)) ++ "%"
  else "0%"

/-- The `currentBalance` field of the `GET /` response body. -/
def rootHandlerBalance (env : Env) : String :=
  renderBalance (getBalance env TARGET_ADDRESS).1

/-- The `balance` field of the `GET /balance` response body. -/
def balanceHandlerBalance (env : Env) : String :=
  renderBalance (getBalance env TARGET_ADDRESS).1

/-- The `data.currentBalance` field of the `POST /request` response
body (both the 200 and the 400 branch format `result.currentBalance`
the same way). -/
def requestHandlerBalance (o : Outcome) : String :=
  renderBalance o.currentBalance

end Service

/-- A faucet response "contains a transaction identifier" when it is a
non-error response whose body carries a truthy (present, non-empty)
`signature` string. -/
def responseHasSignature : Except String FaucetResponse → Bool
  | .error _ => false
  | .ok resp =>
    match resp.data with
    | none => false
    | some body => jsTruthyStr body.signature

/-! ### Sample environments used to instantiate the theorems -/

/-- A run whose faucet call succeeds with signature `"5J7sig"`. -/
def envFaucetOk : Env :=
  { now := "2024-01-01T00:00:00.000Z"
    balanceRpc := .ok 1000000000
    faucetResponse := .ok { data := some { signature := some "5J7sig" } }
    airdropRpc := .error "airdrop not reached" }

/-- A run whose faucet call times out and whose airdrop succeeds with
the same signature string as `envFaucetOk`'s faucet. -/
def envFaucetFailAirdropOk : Env :=
  { now := "2024-01-01T00:00:00.000Z"
    balanceRpc := .ok 1000000000
    faucetResponse := .error "timeout of 30000ms exceeded"
    airdropRpc := .ok "5J7sig" }

/-- A run where the faucet times out and the airdrop is rejected. -/
def envBothFail : Env :=
  { now := "2024-01-01T00:00:00.000Z"
    balanceRpc := .ok 1000000000
    faucetResponse := .error "timeout of 30000ms exceeded"
    airdropRpc := .error "airdrop to 2gAwqZmY7nRi9XCNQs3CjfSzDiVe5npwK3yS7ijo3E8h failed" }

/-- A run where the account holds exactly 0 lamports and the faucet
succeeds. -/
def envBalanceZero : Env :=
  { now := "2024-01-01T00:00:00.000Z"
    balanceRpc := .ok 0
    faucetResponse := .ok { data := some { signature := some "5J7sig" } }
    airdropRpc := .error "airdrop not reached" }

/-- A run where the balance RPC raises and the faucet succeeds. -/
def envBalanceErr : Env :=
  { now := "2024-01-01T00:00:00.000Z"
    balanceRpc := .error "fetch failed"
    faucetResponse := .ok { data := some { signature := some "5J7sig" } }
    airdropRpc := .error "airdrop not reached" }

/-! ### Basic lemmas about the shared clients -/

theorem getBalance_trace (env : Env) (a : String) :
    (getBalance env a).2 = [.balanceCheck a] := rfl

theorem requestDevnetSol_trace (env : Env) (a : String) (amt : ℚ) :
    (requestDevnetSol env a amt).2 = [.faucet a (amt * LAMPORTS_PER_SOL)] := rfl

theorem requestAirdrop_trace (env : Env) (a : String) (amt : ℚ) :
    (requestAirdrop env a amt).2 = [.airdrop a (amt * LAMPORTS_PER_SOL)] := rfl

theorem requestDevnetSol_success_iff (env : Env) (a : String) (amt : ℚ) :
    (requestDevnetSol env a amt).1.success = responseHasSignature env.faucetResponse := by
  obtain ⟨n, b, f, d⟩ := env
  rcases f with m | ⟨_ | ⟨_ | sig⟩⟩
  · rfl
  · rfl
  · rfl
  · by_cases h : sig = "" <;>
      simp [requestDevnetSol, responseHasSignature, jsTruthyStr, h]

theorem requestDevnetSol_failure_error (env : Env) (a : String) (amt : ℚ)
    (h : (requestDevnetSol env a amt).1.success = false) :
    (requestDevnetSol env a amt).1.error.isSome := by
  obtain ⟨n, b, f, d⟩ := env
  rcases f with m | ⟨_ | ⟨_ | sig⟩⟩
  · rfl
  · rfl
  · rfl
  · by_cases hs : sig = "" <;> simp_all [requestDevnetSol, hs]

theorem requestAirdrop_success_error (env : Env) (a : String) (amt : ℚ) :
    ((requestAirdrop env a amt).1.success = true ∧
      (requestAirdrop env a amt).1.signature.isSome ∧
      (requestAirdrop env a amt).1.error = none) ∨
    ((requestAirdrop env a amt).1.success = false ∧
      (requestAirdrop env a amt).1.error.isSome) := by
  obtain ⟨n, b, f, d⟩ := env
  rcases d with m | sig
  · right; exact ⟨rfl, rfl⟩
  · left; exact ⟨rfl, rfl, rfl⟩

theorem requestDevnetSol_success_signature (env : Env) (a : String) (amt : ℚ)
    (h : (requestDevnetSol env a amt).1.success = true) :
    (requestDevnetSol env a amt).1.signature.isSome ∧
      (requestDevnetSol env a amt).1.error = none := by
  obtain ⟨n, b, f, d⟩ := env
  rcases f with m | ⟨_ | ⟨_ | sig⟩⟩
  · simp [requestDevnetSol] at h
  · simp [requestDevnetSol] at h
  · simp [requestDevnetSol] at h
  · by_cases hs : sig = "" <;> simp_all [requestDevnetSol, hs]

/-! ### Lemmas about the shared fallback sequence -/

theorem fundingAttempt_of_faucet_success (env : Env)
    (h : (requestDevnetSol env TARGET_ADDRESS SOL_AMOUNT).1.success = true) :
    fundingAttempt env = requestDevnetSol env TARGET_ADDRESS SOL_AMOUNT := by
  unfold fundingAttempt
  simp [h]

theorem fundingAttempt_of_faucet_failure (env : Env)
    (h : (requestDevnetSol env TARGET_ADDRESS SOL_AMOUNT).1.success = false) :
    fundingAttempt env =
      ((requestAirdrop env TARGET_ADDRESS (min SOL_AMOUNT 2)).1,
       (requestDevnetSol env TARGET_ADDRESS SOL_AMOUNT).2 ++
         (requestAirdrop env TARGET_ADDRESS (min SOL_AMOUNT 2)).2) := by
  unfold fundingAttempt
  simp [h]

theorem fundingAttempt_success_fields (env : Env)
    (h : (fundingAttempt env).1.success = true) :
    (fundingAttempt env).1.signature.isSome ∧ (fundingAttempt env).1.error = none := by
  by_cases hf : (requestDevnetSol env TARGET_ADDRESS SOL_AMOUNT).1.success = true
  · rw [fundingAttempt_of_faucet_success env hf]
    exact requestDevnetSol_success_signature env TARGET_ADDRESS SOL_AMOUNT hf
  · rw [fundingAttempt_of_faucet_failure env (by simpa using hf)] at h ⊢
    rcases requestAirdrop_success_error env TARGET_ADDRESS (min SOL_AMOUNT 2) with
      ⟨_, h2, h3⟩ | ⟨h1, _⟩
    · exact ⟨h2, h3⟩
    · have hx : (requestAirdrop env TARGET_ADDRESS (min SOL_AMOUNT 2)).1.success = true := h
      rw [hx] at h1
      exact Bool.noConfusion h1

theorem fundingAttempt_failure_error (env : Env)
    (h : (fundingAttempt env).1.success = false) :
    (fundingAttempt env).1.error.isSome := by
  by_cases hf : (requestDevnetSol env TARGET_ADDRESS SOL_AMOUNT).1.success = true
  · rw [fundingAttempt_of_faucet_success env hf] at h
    rw [hf] at h
    exact absurd h (by simp)
  · rw [fundingAttempt_of_faucet_failure env (by simpa using hf)] at h ⊢
    rcases requestAirdrop_success_error env TARGET_ADDRESS (min SOL_AMOUNT 2) with
      ⟨h1, _, _⟩ | ⟨_, h2⟩
    · have hx : (requestAirdrop env TARGET_ADDRESS (min SOL_AMOUNT 2)).1.success = false := h
      rw [hx] at h1
      exact Bool.noConfusion h1
    · exact h2

/-! ### Lemmas about the two orchestrators -/

theorem Service.requestSol_stats_step (env : Env) (s : Service.Stats) :
    (Service.requestSol env s).stats.totalRequests = s.totalRequests + 1 ∧
    (Service.requestSol env s).stats.successfulRequests +
        (Service.requestSol env s).stats.failedRequests =
      s.successfulRequests + s.failedRequests + 1 := by
  unfold Service.requestSol
  by_cases h : (fundingAttempt env).1.success <;> simp [h] <;> omega

theorem Service.requestSol_trace_eq (env : Env) (s : Service.Stats) :
    (Service.requestSol env s).trace =
      (getBalance env TARGET_ADDRESS).2 ++ (fundingAttempt env).2 := by
  unfold Service.requestSol
  by_cases h : (fundingAttempt env).1.success <;> simp [h]

theorem Service.requestSol_outcome_success (env : Env) (s : Service.Stats) :
    (Service.requestSol env s).outcome.success = (fundingAttempt env).1.success := by
  unfold Service.requestSol
  by_cases h : (fundingAttempt env).1.success <;> simp [h]

theorem Service.requestSol_outcome_balance (env : Env) (s : Service.Stats) :
    (Service.requestSol env s).outcome.currentBalance =
      (getBalance env TARGET_ADDRESS).1 := by
  unfold Service.requestSol
  by_cases h : (fundingAttempt env).1.success <;> simp [h]

theorem Service.requestSol_outcome_error (env : Env) (s : Service.Stats)
    (h : (fundingAttempt env).1.success = false) :
    (Service.requestSol env s).outcome.error = (fundingAttempt env).1.error := by
  unfold Service.requestSol
  simp [h]

theorem Service.requestSol_outcome_signature (env : Env) (s : Service.Stats)
    (h : (fundingAttempt env).1.success = true) :
    (Service.requestSol env s).outcome.signature = (fundingAttempt env).1.signature := by
  unfold Service.requestSol
  simp [h]

theorem Service.runMany_counts (envs : List Env) :
    ∀ s : Service.Stats,
      (Service.runMany envs s).totalRequests = s.totalRequests + envs.length ∧
      (Service.runMany envs s).successfulRequests +
          (Service.runMany envs s).failedRequests =
        s.successfulRequests + s.failedRequests + envs.length := by
  induction envs with
  | nil => intro s; simp [Service.runMany]
  | cons e rest ih =>
    intro s
    obtain ⟨h1, h2⟩ := Service.requestSol_stats_step e s
    obtain ⟨h3, h4⟩ := ih (Service.requestSol e s).stats
    unfold Service.runMany
    refine ⟨?_, ?_⟩ <;> simp only [List.length_cons] <;> omega

theorem IndexJs.requestSol_unskipped_trace (env : Env) (t : IndexJs.State)
    (h : t.requestCount < MAX_REQUESTS_PER_SESSION) :
    (IndexJs.requestSol env t).trace =
      (getBalance env TARGET_ADDRESS).2 ++ (fundingAttempt env).2 := by
  unfold IndexJs.requestSol
  rw [if_neg (by omega)]

theorem fundingAttempt_airdrop_calls_of_failure (env : Env)
    (h : (requestDevnetSol env TARGET_ADDRESS SOL_AMOUNT).1.success = false) :
    (fundingAttempt env).2.filter Call.isAirdrop =
      [Call.airdrop TARGET_ADDRESS (min SOL_AMOUNT 2 * LAMPORTS_PER_SOL)] := by
  rw [fundingAttempt_of_faucet_failure env h]
  simp [requestDevnetSol_trace, requestAirdrop_trace, Call.isAirdrop]

theorem fundingAttempt_airdrop_calls_of_success (env : Env)
    (h : (requestDevnetSol env TARGET_ADDRESS SOL_AMOUNT).1.success = true) :
    (fundingAttempt env).2.filter Call.isAirdrop = [] := by
  rw [fundingAttempt_of_faucet_success env h]
  simp [requestDevnetSol_trace, Call.isAirdrop]

/-! ### Claim theorems -/

/-- Claim C1: when the session counter has reached the limit, the
orchestrator of the scheduled-loop variant (the only variant with a
Session Limiter) returns the skipped outcome, issues no remote call —
in particular it invokes neither the Faucet Client nor the Airdrop
Fallback Client — and leaves the process state unchanged, so no request
counter of the process is incremented. -/
theorem requestSol_limit_reached_skips (env : Env) (t : IndexJs.State)
    (h : MAX_REQUESTS_PER_SESSION ≤ t.requestCount) :
    IndexJs.requestSol env t =
      { outcome := .skipped, state := t, trace := [] } := by
  unfold IndexJs.requestSol
  rw [if_pos (by omega)]

theorem requestSol_limit_reached_skips_witness :
    MAX_REQUESTS_PER_SESSION ≤
        ({ requestCount := 2 } : IndexJs.State).requestCount ∧
    IndexJs.requestSol envFaucetOk { requestCount := 2 } =
      { outcome := .skipped, state := { requestCount := 2 }, trace := [] } :=
  ⟨by decide, requestSol_limit_reached_skips envFaucetOk { requestCount := 2 } (by decide)⟩

/-- Claim C2: every completed orchestration of the HTTP-service variant
preserves the invariant `totalRequests = successfulRequests + failedRequests`,
and after `N` orchestrations from the initial statistics,
`totalRequests = N` and `successfulRequests + failedRequests = N`. -/
theorem requestSol_statistics_invariant :
    (∀ (env : Env) (s : Service.Stats),
      s.totalRequests = s.successfulRequests + s.failedRequests →
      (Service.requestSol env s).stats.totalRequests =
        (Service.requestSol env s).stats.successfulRequests +
          (Service.requestSol env s).stats.failedRequests) ∧
    (∀ (t0 : Nat) (envs : List Env),
      (Service.runMany envs (Service.initialStats t0)).totalRequests = envs.length ∧
      (Service.runMany envs (Service.initialStats t0)).successfulRequests +
          (Service.runMany envs (Service.initialStats t0)).failedRequests =
        envs.length) := by
  constructor
  · intro env s hs
    obtain ⟨h1, h2⟩ := Service.requestSol_stats_step env s
    omega
  · intro t0 envs
    obtain ⟨h1, h2⟩ := Service.runMany_counts envs (Service.initialStats t0)
    simp [Service.initialStats] at h1 h2
    exact ⟨h1, h2⟩

theorem requestSol_statistics_invariant_witness :
    (Service.requestSol envFaucetOk (Service.initialStats 0)).stats.totalRequests =
      (Service.requestSol envFaucetOk (Service.initialStats 0)).stats.successfulRequests +
        (Service.requestSol envFaucetOk (Service.initialStats 0)).stats.failedRequests ∧
    (Service.runMany [envFaucetOk, envBothFail] (Service.initialStats 0)).totalRequests = 2 := by
  refine ⟨requestSol_statistics_invariant.1 envFaucetOk (Service.initialStats 0) (by decide), ?_⟩
  have h := (requestSol_statistics_invariant.2 0 [envFaucetOk, envBothFail]).1
  simpa using h

/-- Claim C3: in any orchestration of either variant (for the
scheduled-loop variant, one that is not skipped), if the Faucet Client
fails then the Airdrop Fallback Client is invoked exactly once, with
the amount `min SOL_AMOUNT 2 <= 2` (sent as that amount in lamports);
if the Faucet Client succeeds it is never invoked. -/
theorem requestSol_fallback_policy (env : Env) (s : Service.Stats)
    (t : IndexJs.State) (ht : t.requestCount < MAX_REQUESTS_PER_SESSION) :
    (((requestDevnetSol env TARGET_ADDRESS SOL_AMOUNT).1.success = false →
      (Service.requestSol env s).trace.filter Call.isAirdrop =
          [Call.airdrop TARGET_ADDRESS (min SOL_AMOUNT 2 * LAMPORTS_PER_SOL)] ∧
      (IndexJs.requestSol env t).trace.filter Call.isAirdrop =
          [Call.airdrop TARGET_ADDRESS (min SOL_AMOUNT 2 * LAMPORTS_PER_SOL)] ∧
      min SOL_AMOUNT 2 ≤ 2) ∧
    ((requestDevnetSol env TARGET_ADDRESS SOL_AMOUNT).1.success = true →
      (Service.requestSol env s).trace.filter Call.isAirdrop = [] ∧
      (IndexJs.requestSol env t).trace.filter Call.isAirdrop = [])) := by
  constructor
  · intro hf
    have h1 := fundingAttempt_airdrop_calls_of_failure env hf
    refine ⟨?_, ?_, min_le_right _ _⟩
    · rw [Service.requestSol_trace_eq]
      simp [getBalance, List.filter_append, h1, Call.isAirdrop]
    · rw [IndexJs.requestSol_unskipped_trace env t ht]
      simp [getBalance, List.filter_append, h1, Call.isAirdrop]
  · intro hf
    have h1 := fundingAttempt_airdrop_calls_of_success env hf
    constructor
    · rw [Service.requestSol_trace_eq]
      simp [getBalance, List.filter_append, h1, Call.isAirdrop]
    · rw [IndexJs.requestSol_unskipped_trace env t ht]
      simp [getBalance, List.filter_append, h1, Call.isAirdrop]

theorem requestSol_fallback_policy_witness :
    ({ requestCount := 0 } : IndexJs.State).requestCount < MAX_REQUESTS_PER_SESSION ∧
    (requestDevnetSol envBothFail TARGET_ADDRESS SOL_AMOUNT).1.success = false ∧
    (Service.requestSol envBothFail (Service.initialStats 0)).trace.filter Call.isAirdrop =
      [Call.airdrop TARGET_ADDRESS (min SOL_AMOUNT 2 * LAMPORTS_PER_SOL)] :=
  ⟨by decide, by decide,
   ((requestSol_fallback_policy envBothFail (Service.initialStats 0)
      { requestCount := 0 } (by decide)).1 (by decide)).1⟩

/-- Claim C4 counterexample: the orchestration outcome does NOT contain
the method used.  A faucet-success run and an airdrop-fallback run with
the same signature produce byte-for-byte identical outcome objects
(down to `requestedAmount`, which evaluates to `SOL_AMOUNT` whenever a
signature is present), while their call traces show that different
clients were invoked. -/
theorem requestSol_outcome_hides_method :
    (Service.requestSol envFaucetOk (Service.initialStats 0)).outcome =
      (Service.requestSol envFaucetFailAirdropOk (Service.initialStats 0)).outcome ∧
    (Service.requestSol envFaucetOk (Service.initialStats 0)).trace.filter
        Call.isAirdrop = [] ∧
    ((Service.requestSol envFaucetFailAirdropOk (Service.initialStats 0)).trace.filter
        Call.isAirdrop).length = 1 :=
  ⟨rfl, by decide, by decide⟩

/-- Claim C4 (amended): the outcome of the HTTP-service orchestrator
contains the success flag (equal to the funding attempt's success), the
pre-request balance, a transaction identifier when the run succeeded,
and an error detail when it failed — but not the method used. -/
theorem requestSol_outcome_fields (env : Env) (s : Service.Stats) :
    (Service.requestSol env s).outcome.success = (fundingAttempt env).1.success ∧
    (Service.requestSol env s).outcome.currentBalance =
      (getBalance env TARGET_ADDRESS).1 ∧
    ((Service.requestSol env s).outcome.success = true →
      (Service.requestSol env s).outcome.signature.isSome) ∧
    ((Service.requestSol env s).outcome.success = false →
      (Service.requestSol env s).outcome.error.isSome) := by
  refine ⟨Service.requestSol_outcome_success env s,
    Service.requestSol_outcome_balance env s, ?_, ?_⟩
  · intro h
    have hf : (fundingAttempt env).1.success = true := by
      rw [← Service.requestSol_outcome_success env s]; exact h
    rw [Service.requestSol_outcome_signature env s hf]
    exact (fundingAttempt_success_fields env hf).1
  · intro h
    have hf : (fundingAttempt env).1.success = false := by
      rw [← Service.requestSol_outcome_success env s]; exact h
    rw [Service.requestSol_outcome_error env s hf]
    exact fundingAttempt_failure_error env hf

theorem requestSol_outcome_fields_witness :
    (Service.requestSol envFaucetOk (Service.initialStats 0)).outcome.success = true ∧
    (Service.requestSol envFaucetOk (Service.initialStats 0)).outcome.signature.isSome :=
  ⟨by decide,
   (requestSol_outcome_fields envFaucetOk (Service.initialStats 0)).2.2.1 (by decide)⟩

/-- Claim C5: for every behaviour of the lower-level clients (all
environments, including raised-error outcomes of the balance read, the
faucet call and the airdrop call), the HTTP-service orchestrator — a
total function in this model, mirroring the source's catch-all — returns
a well-formed outcome: either success with no error detail, or
`success = false` with an error detail, never a propagated exception. -/
theorem requestSol_no_exception (env : Env) (s : Service.Stats) :
    ((Service.requestSol env s).outcome.success = true ∧
      (Service.requestSol env s).outcome.error = none) ∨
    ((Service.requestSol env s).outcome.success = false ∧
      (Service.requestSol env s).outcome.error.isSome) := by
  by_cases h : (fundingAttempt env).1.success
  · left
    constructor
    · rw [Service.requestSol_outcome_success env s]; exact h
    · unfold Service.requestSol
      simp [h]
  · right
    have hf : (fundingAttempt env).1.success = false := by simpa using h
    constructor
    · rw [Service.requestSol_outcome_success env s, hf]
    · rw [Service.requestSol_outcome_error env s hf]
      exact fundingAttempt_failure_error env hf

/-- Claim C6: when the faucet fails and the airdrop also fails, the
orchestration reports failure and its error detail is the airdrop's
(last attempted method's) failure message. -/
theorem requestSol_both_fail_reports_airdrop_error (env : Env)
    (s : Service.Stats) (msg : String)
    (hf : (requestDevnetSol env TARGET_ADDRESS SOL_AMOUNT).1.success = false)
    (ha : env.airdropRpc = .error msg) :
    (Service.requestSol env s).outcome.success = false ∧
    (Service.requestSol env s).outcome.error = some msg := by
  have hair : (requestAirdrop env TARGET_ADDRESS (min SOL_AMOUNT 2)).1 =
      { success := false, signature := none, error := some msg } := by
    unfold requestAirdrop
    rw [ha]
  have hfa := fundingAttempt_of_faucet_failure env hf
  have hs : (fundingAttempt env).1.success = false := by
    rw [hfa]; simp [hair]
  constructor
  · rw [Service.requestSol_outcome_success env s, hs]
  · rw [Service.requestSol_outcome_error env s hs, hfa]
    simp [hair]

theorem requestSol_both_fail_reports_airdrop_error_witness :
    (requestDevnetSol envBothFail TARGET_ADDRESS SOL_AMOUNT).1.success = false ∧
    (Service.requestSol envBothFail (Service.initialStats 0)).outcome.error =
      some "airdrop to 2gAwqZmY7nRi9XCNQs3CjfSzDiVe5npwK3yS7ijo3E8h failed" :=
  ⟨by decide,
   (requestSol_both_fail_reports_airdrop_error envBothFail (Service.initialStats 0)
      "airdrop to 2gAwqZmY7nRi9XCNQs3CjfSzDiVe5npwK3yS7ijo3E8h failed"
      (by decide) rfl).2⟩

/-- Claim C7: the derived success rate equals
`(successfulRequests / totalRequests) * 100` formatted to two decimal
places when `totalRequests > 0`, and is the literal `"0%"` when
`totalRequests = 0`; the division-by-zero (`NaN`) branch of the
JavaScript formatter is provably never taken. -/
theorem successRate_formula_and_zero (s : Service.Stats) :
    (s.totalRequests = 0 → Service.successRate s = "0%") ∧
    (0 < s.totalRequests →
      Service.successRate s =
        toFixed 2 ((s.successfulRequests : ℚ) / (s.totalRequests : ℚ) * 100) ++ "%") := by
  constructor
  · intro h
    unfold Service.successRate
    rw [if_neg (by omega)]
  · intro h
    unfold Service.successRate
    rw [if_pos h]
    have hb : ((s.totalRequests : ℚ)) ≠ 0 := by
      exact_mod_cast Nat.pos_iff_ne_zero.mp h
    unfold jsDiv
    rw [if_neg hb]
    simp [jsToFixed]

theorem successRate_formula_and_zero_witness :
    Service.successRate (Service.initialStats 0) = "0%" ∧
    Service.successRate
        { totalRequests := 4, successfulRequests := 1, failedRequests := 3,
          lastRequestTime := none, lastSuccessTime := none, uptime := 0 } =
      toFixed 2 ((1 : ℚ) / (4 : ℚ) * 100) ++ "%" := by
  refine ⟨(successRate_formula_and_zero (Service.initialStats 0)).1 (by decide), ?_⟩
  have h := (successRate_formula_and_zero
      { totalRequests := 4, successfulRequests := 1, failedRequests := 3,
        lastRequestTime := none, lastSuccessTime := none, uptime := 0 }).2 (by decide)
  simpa using h

/-- Claim C8: for every address and human-readable amount, the Faucet
Client sends exactly one request carrying `amount * LAMPORTS_PER_SOL`,
succeeds precisely when the response body contains a (truthy)
transaction signature, and on any failure — error response, network
failure, timeout, or a response lacking a signature — carries a failure
detail. -/
theorem requestDevnetSol_contract (env : Env) (a : String) (amt : ℚ) :
    (requestDevnetSol env a amt).2 = [Call.faucet a (amt * LAMPORTS_PER_SOL)] ∧
    ((requestDevnetSol env a amt).1.success = true ↔
      responseHasSignature env.faucetResponse = true) ∧
    ((requestDevnetSol env a amt).1.success = false →
      (requestDevnetSol env a amt).1.error.isSome) := by
  refine ⟨rfl, ?_, requestDevnetSol_failure_error env a amt⟩
  rw [requestDevnetSol_success_iff]

theorem requestDevnetSol_contract_witness :
    (requestDevnetSol envBothFail TARGET_ADDRESS SOL_AMOUNT).2 =
      [Call.faucet TARGET_ADDRESS (SOL_AMOUNT * LAMPORTS_PER_SOL)] ∧
    (requestDevnetSol envBothFail TARGET_ADDRESS SOL_AMOUNT).1.success = false ∧
    (requestDevnetSol envBothFail TARGET_ADDRESS SOL_AMOUNT).1.error.isSome :=
  ⟨(requestDevnetSol_contract envBothFail TARGET_ADDRESS SOL_AMOUNT).1, by decide,
   (requestDevnetSol_contract envBothFail TARGET_ADDRESS SOL_AMOUNT).2.2 (by decide)⟩

/-- Claim C9: the balance read is best-effort — on a raised RPC error
`getBalance` returns `null` rather than propagating — and an
orchestration whose funding attempt succeeds while the balance lookup
is unavailable still reports `success = true`, with the balance absent
from the outcome and rendered as `"Unknown"` by the HTTP handler. -/
theorem getBalance_best_effort (env : Env) (a : String) (e : String)
    (s : Service.Stats) (hb : env.balanceRpc = .error e) :
    (getBalance env a).1 = none ∧
    ((fundingAttempt env).1.success = true →
      (Service.requestSol env s).outcome.success = true ∧
      (Service.requestSol env s).outcome.currentBalance = none ∧
      Service.requestHandlerBalance (Service.requestSol env s).outcome = "Unknown") := by
  have hg : (getBalance env a).1 = none := by
    unfold getBalance
    rw [hb]
  have hg2 : (getBalance env TARGET_ADDRESS).1 = none := by
    unfold getBalance
    rw [hb]
  refine ⟨hg, ?_⟩
  intro hf
  refine ⟨?_, ?_, ?_⟩
  · rw [Service.requestSol_outcome_success env s, hf]
  · rw [Service.requestSol_outcome_balance env s, hg2]
  · unfold Service.requestHandlerBalance
    rw [Service.requestSol_outcome_balance env s, hg2]
    rfl

theorem getBalance_best_effort_witness :
    (getBalance envBalanceErr TARGET_ADDRESS).1 = none ∧
    (Service.requestSol envBalanceErr (Service.initialStats 0)).outcome.success = true ∧
    Service.requestHandlerBalance
        (Service.requestSol envBalanceErr (Service.initialStats 0)).outcome = "Unknown" := by
  obtain ⟨h1, h2⟩ := getBalance_best_effort envBalanceErr TARGET_ADDRESS "fetch failed"
      (Service.initialStats 0) rfl
  obtain ⟨h3, _, h5⟩ := h2 (by decide)
  exact ⟨h1, h3, h5⟩

/-- Claim C10: whenever `getBalance` returns exactly `0` — a valid
non-negative balance — the balance strings of `GET /`, `GET /balance`
and `POST /request` all render `"Unknown"`, because the handlers test
JavaScript truthiness of the balance rather than comparing it to
`null`; a zero balance is indistinguishable from an unavailable one in
the formatted output. -/
theorem zero_balance_renders_unknown (env : Env)
    (h : (getBalance env TARGET_ADDRESS).1 = some 0) :
    Service.rootHandlerBalance env = "Unknown" ∧
    Service.balanceHandlerBalance env = "Unknown" ∧
    ∀ s : Service.Stats,
      Service.requestHandlerBalance (Service.requestSol env s).outcome = "Unknown" := by
  have hr : renderBalance (getBalance env TARGET_ADDRESS).1 = "Unknown" := by
    rw [h]
    simp [renderBalance]
  refine ⟨?_, ?_, ?_⟩
  · unfold Service.rootHandlerBalance
    exact hr
  · unfold Service.balanceHandlerBalance
    exact hr
  · intro s
    unfold Service.requestHandlerBalance
    rw [Service.requestSol_outcome_balance env s, h]
    simp [renderBalance]

theorem zero_balance_renders_unknown_witness :
    (getBalance envBalanceZero TARGET_ADDRESS).1 = some 0 ∧
    Service.rootHandlerBalance envBalanceZero = "Unknown" ∧
    Service.balanceHandlerBalance envBalanceZero = "Unknown" ∧
    Service.requestHandlerBalance
        (Service.requestSol envBalanceZero (Service.initialStats 0)).outcome = "Unknown" := by
  have h0 : (getBalance envBalanceZero TARGET_ADDRESS).1 = some 0 := by
    simp [getBalance, envBalanceZero]
  obtain ⟨h1, h2, h3⟩ := zero_balance_renders_unknown envBalanceZero h0
  exact ⟨h0, h1, h2, h3 (Service.initialStats 0)⟩

end AutoDevnet
